import Mathlib

/-
Shallow embedding of the shotStopper brew-control firmware (src/src/main.cpp).

Modelling conventions:
* C++ `float` values are modelled as exact rationals (`ℚ`).  Note that in `ℚ`
  division by zero yields `0`, whereas IEEE float division of a nonzero
  numerator by zero yields an infinity; in both semantics the result of such a
  division differs from `maxShotDuration` (for positive `maxShotDuration`),
  which is all the theorems below rely on.
* The fixed arrays `weight[1000]` / `time_s[1000]` together with the counter
  `datapoints` are modelled as a single list `samples` of (time, weight)
  pairs whose length is `datapoints`; the capacity bound 1000 is the guard
  `datapoints < MAX_SHOT_DATAPOINTS` from the source.
* Calls into external collaborators (scale commands, LED writes, logging,
  WiFi, BLE characteristic updates) carry no modelled state; output-pin
  writes, the momentary pulse delay and `config.save()` invocations are
  recorded explicitly as effect outputs so theorems can talk about them.
* Each call of `scale->isConnected()` samples an external predicate that can
  change between calls within one `loop()` pass; a tick input therefore
  carries one boolean for the read in the mode update (line 430), one for the
  read guarding the connect block (line 438), and one for the remaining reads
  of the pass.
-/

namespace ShotStopper

/-- End-of-shot classification, `typedef enum {BUTTON, WEIGHT, TIME, DISCONNECT, UNDEF} ENDTYPE`. -/
inductive ENDTYPE
  | BUTTON
  | WEIGHT
  | TIME
  | DISCONNECT
  | UNDEF
deriving DecidableEq, Repr

/-- Output-pin effects emitted by the control code: `digitalWrite(OUT, HIGH)`,
`digitalWrite(OUT, LOW)` and the blocking `delay(brewPulseDuration)` between
the two writes of the momentary pulse. -/
inductive OutAction
  | outHigh
  | outLow
  | delayMs (n : ℕ)
deriving DecidableEq, Repr

/-- The runtime configuration globals of main.cpp (loaded from the config
store in `setup()`, mutated by the BLE drain and the offset learner). -/
structure Tuning where
  goalWeight : ℚ
  weightOffset : ℚ
  maxOffset : ℚ
  brewPulseDuration : ℕ
  dripDelay : ℚ
  reedSwitchDelay : ℚ
  minWeightForPrediction : ℚ
  minShotDuration : ℚ
  maxShotDuration : ℚ
  targetTime : ℚ
  momentary : Bool
  reedSwitch : Bool
  autoTare : Bool
  brewByTimeOnlyConfigured : Bool
deriving DecidableEq, Repr

/-- The `Shot` struct of main.cpp.  `samples` holds the (time_s, weight)
pairs, oldest first; its length is `datapoints`.  The C++ field `end` is a
Lean keyword, hence `endR`. -/
structure Shot where
  start_timestamp_s : ℚ
  shotTimer : ℚ
  end_s : ℚ
  expected_end_s : ℚ
  samples : List (ℚ × ℚ)
  brewing : Bool
  endR : ENDTYPE
deriving DecidableEq, Repr

/-- The debounce / button globals of main.cpp: `buttonArr`, `buttonPressed`,
`buttonLatched`, `newButtonState` (the raw sampling period bookkeeping
`lastButtonRead_ms` is abstracted into the per-tick input `buttonReadDue`). -/
structure ButtonState where
  buttonArr : List Bool
  buttonPressed : Bool
  buttonLatched : Bool
  newButtonState : Bool
deriving DecidableEq, Repr

/-- The `PendingWrite` mailbox filled by the BLE characteristic callback:
one dirty flag and one uint8 value per externally settable parameter.
Values are `ℕ` that the callback stores as `uint8_t` (always < 256). -/
structure PendingWrite where
  weightDirty : Bool
  reedSwitchDirty : Bool
  momentaryDirty : Bool
  autoTareDirty : Bool
  minShotDurationDirty : Bool
  maxShotDurationDirty : Bool
  dripDelayDirty : Bool
  weight : ℕ
  reedSwitchVal : ℕ
  momentaryVal : ℕ
  autoTareVal : ℕ
  minShotDurationVal : ℕ
  maxShotDurationVal : ℕ
  dripDelayVal : ℕ
deriving DecidableEq, Repr

/-- The mutable state of the control loop that the claims are about:
the shot session, the tuning globals, the button globals, `currentWeight`
and the per-tick recomputed `brewByTimeOnly`. -/
structure SysState where
  shot : Shot
  tuning : Tuning
  btn : ButtonState
  currentWeight : ℚ
  brewByTimeOnly : Bool
deriving DecidableEq, Repr

/-- Number of datapoints used to calculate the trend line, `#define N 10`. -/
def NTrend : ℕ := 10

/-- Maximum number of stored measurements per shot, `#define MAX_SHOT_DATAPOINTS 1000`. -/
def MAX_SHOT_DATAPOINTS : ℕ := 1000

/-- Length of the debounce history, `#define BUTTON_STATE_ARRAY_LENGTH 31`. -/
def BUTTON_STATE_ARRAY_LENGTH : ℕ := 31

/-- The most recent stored weight, `s->weight[s->datapoints - 1]`
(default 0 for an empty list; the source only reads it when at least
`NTrend` samples exist, by short-circuit of `||`). -/
def lastSampleWeight (samples : List (ℚ × ℚ)) : ℚ :=
  ((samples.getLast?).map Prod.snd).getD 0

/-- The window the fitting loop `for (int i = s->datapoints - N; i < s->datapoints; i++)`
ranges over: the last `NTrend` stored samples. -/
def lastN (samples : List (ℚ × ℚ)) : List (ℚ × ℚ) :=
  samples.drop (samples.length - NTrend)

/-- Accumulated `sumXY` of the fitting loop. -/
def sumXY (l : List (ℚ × ℚ)) : ℚ := (l.map (fun p => p.1 * p.2)).sum

/-- Accumulated `sumX` of the fitting loop. -/
def sumX (l : List (ℚ × ℚ)) : ℚ := (l.map Prod.fst).sum

/-- Accumulated `sumY` of the fitting loop. -/
def sumY (l : List (ℚ × ℚ)) : ℚ := (l.map Prod.snd).sum

/-- Accumulated `sumSquaredX` of the fitting loop. -/
def sumSquaredX (l : List (ℚ × ℚ)) : ℚ := (l.map (fun p => p.1 * p.1)).sum

/-- The slope `m = (N * sumXY - sumX * sumY) / (N * sumSquaredX - sumX * sumX)`
computed by `calculateEndTime`. -/
def fittedSlope (l : List (ℚ × ℚ)) : ℚ :=
  ((NTrend : ℚ) * sumXY l - sumX l * sumY l)
    / ((NTrend : ℚ) * sumSquaredX l - sumX l * sumX l)

/-- The intercept `b = meanY - m * meanX` computed by `calculateEndTime`. -/
def fittedIntercept (l : List (ℚ × ℚ)) : ℚ :=
  sumY l / (NTrend : ℚ) - fittedSlope l * (sumX l / (NTrend : ℚ))

/-- `calculateEndTime` (main.cpp lines 859-884): the new value stored into
`s->expected_end_s`.  Too few samples or a last weight below
`minWeightForPrediction` give `maxShotDuration`; otherwise the least-squares
line over the last `NTrend` samples is fitted and, when the slope is
negative, `maxShotDuration` is returned, else `(goalWeight - weightOffset - b) / m`. -/
def calculateEndTime (samples : List (ℚ × ℚ)) (t : Tuning) : ℚ :=
  if samples.length < NTrend ∨ lastSampleWeight samples < t.minWeightForPrediction then
    t.maxShotDuration
  else
    let w := lastN samples
    let m := fittedSlope w
    let b := fittedIntercept w
    if m < 0 then t.maxShotDuration else (t.goalWeight - t.weightOffset - b) / m

/-- Result of one `setBrewingState` call: the updated shot and button globals
and the output-pin effects performed. -/
structure SBResult where
  shot : Shot
  btn : ButtonState
  outs : List OutAction
deriving DecidableEq, Repr

/-- `setBrewingState` (main.cpp lines 787-857).  Scale commands
(`resetTimer`/`tare`/`startTimer`/`stopTimer`) and logging are external and
carry no modelled state.  The final unconditional `shot.end = UNDEF;`
(line 856) is applied to whichever branch result was produced. -/
def setBrewingState (brewing : Bool) (sh : Shot) (t : Tuning) (b : ButtonState)
    (now : ℚ) : SBResult :=
  let r : SBResult :=
    if brewing then
      ⟨{ sh with start_timestamp_s := now, shotTimer := 0, samples := [],
                 expected_end_s := t.maxShotDuration }, b, []⟩
    else
      let sh1 := { sh with end_s := now - sh.start_timestamp_s }
      if t.momentary ∧ (sh.endR = ENDTYPE.WEIGHT ∨ sh.endR = ENDTYPE.TIME) then
        ⟨sh1, { b with buttonPressed := false },
         [OutAction.outHigh, OutAction.delayMs t.brewPulseDuration, OutAction.outLow]⟩
      else if t.momentary = false then
        ⟨sh1, { b with buttonLatched := false, buttonPressed := false },
         [OutAction.outLow]⟩
      else
        ⟨sh1, b, []⟩
  ⟨{ r.shot with endR := ENDTYPE.UNDEF }, r.btn, r.outs⟩

/-- Result of a loop fragment: the updated system state, the output-pin
effects, and the end reasons consumed by stop invocations of
`setBrewingState` (the value of `shot.end` each time the stop branch ran). -/
structure EvResult where
  state : SysState
  outs : List OutAction
  consumed : List ENDTYPE
deriving DecidableEq, Repr

/-- The scale connection block of `loop()` (main.cpp lines 438-460), given the
values of `scale->isConnected()` / `scale->isConnecting()` observed there.
`scale->init()`, `scale->updateConnection()` and the BLE-server re-creation
are external calls; the modelled effects are `currentWeight = 0` and the
forced Disconnect-classified stop. -/
def connectBlock (s : SysState) (connected connecting : Bool) (now : ℚ) : EvResult :=
  if connected = false then
    if connecting = false then
      let s1 := { s with currentWeight := 0 }
      if s1.shot.brewing ∧ s1.brewByTimeOnly = false then
        let sh := { s1.shot with brewing := false, endR := ENDTYPE.DISCONNECT }
        let r := setBrewingState false sh s1.tuning s1.btn now
        ⟨{ s1 with shot := r.shot, btn := r.btn }, r.outs, [ENDTYPE.DISCONNECT]⟩
      else
        ⟨s1, [], []⟩
    else
      ⟨s, [], []⟩
  else
    ⟨s, [], []⟩

/-- Model of `static_cast<uint8_t>(float)` for the in-range nonnegative values
the firmware stores in `goalWeight`: truncation to an unsigned byte. -/
def trunc8 (q : ℚ) : ℕ := q.floor.toNat % 256

/-- Drain of the goal-weight slot (main.cpp lines 697-711); the accumulator
carries the tuning globals and the `needsSave` flag.  The BLE characteristic
write-back is external. -/
def drainWeight (p : PendingWrite) (a : Tuning × Bool) : Tuning × Bool :=
  if p.weightDirty then
    if p.weight ≠ trunc8 a.1.goalWeight then
      ({ a.1 with goalWeight := (p.weight : ℚ) }, true)
    else a
  else a

/-- Drain of the reed-switch slot (main.cpp lines 713-723); the input-pin
re-selection `in = reedSwitch ? REED_IN : IN` is external. -/
def drainReed (p : PendingWrite) (a : Tuning × Bool) : Tuning × Bool :=
  if p.reedSwitchDirty then
    let v : Bool := p.reedSwitchVal != 0
    if v ≠ a.1.reedSwitch then
      ({ a.1 with reedSwitch := v }, true)
    else a
  else a

/-- Drain of the momentary slot (main.cpp lines 725-734). -/
def drainMomentary (p : PendingWrite) (a : Tuning × Bool) : Tuning × Bool :=
  if p.momentaryDirty then
    let v : Bool := p.momentaryVal != 0
    if v ≠ a.1.momentary then
      ({ a.1 with momentary := v }, true)
    else a
  else a

/-- Drain of the auto-tare slot (main.cpp lines 736-745). -/
def drainAutoTare (p : PendingWrite) (a : Tuning × Bool) : Tuning × Bool :=
  if p.autoTareDirty then
    let v : Bool := p.autoTareVal != 0
    if v ≠ a.1.autoTare then
      ({ a.1 with autoTare := v }, true)
    else a
  else a

/-- Drain of the min-shot-duration slot (main.cpp lines 747-756). -/
def drainMinDur (p : PendingWrite) (a : Tuning × Bool) : Tuning × Bool :=
  if p.minShotDurationDirty then
    let v : ℚ := (p.minShotDurationVal : ℚ)
    if v ≠ a.1.minShotDuration then
      ({ a.1 with minShotDuration := v }, true)
    else a
  else a

/-- Drain of the max-shot-duration slot (main.cpp lines 758-767). -/
def drainMaxDur (p : PendingWrite) (a : Tuning × Bool) : Tuning × Bool :=
  if p.maxShotDurationDirty then
    let v : ℚ := (p.maxShotDurationVal : ℚ)
    if v ≠ a.1.maxShotDuration then
      ({ a.1 with maxShotDuration := v }, true)
    else a
  else a

/-- Drain of the drip-delay slot (main.cpp lines 769-778). -/
def drainDrip (p : PendingWrite) (a : Tuning × Bool) : Tuning × Bool :=
  if p.dripDelayDirty then
    let v : ℚ := (p.dripDelayVal : ℚ)
    if v ≠ a.1.dripDelay then
      ({ a.1 with dripDelay := v }, true)
    else a
  else a

/-- `processPendingBLEWrites` (main.cpp lines 694-785): drains the seven
slots in source order and, if any slot changed, performs exactly one
`config.save()` at the end of the batch.  The second component counts the
persistence calls made. -/
def processPendingBLEWrites (t : Tuning) (p : PendingWrite) : Tuning × ℕ :=
  let a := drainDrip p (drainMaxDur p (drainMinDur p (drainAutoTare p
    (drainMomentary p (drainReed p (drainWeight p (t, false)))))))
  (a.1, if a.2 then 1 else 0)

/-- The weight-reception block of `loop()` (main.cpp lines 496-526), given
`scale->isConnected()` and the optional freshly received weight
(`newWeightAvailable()`/`getWeight()`).  While brewing and below the sample
capacity, the new point is appended, the shot timer is refreshed and
`calculateEndTime` is re-run; without a scale, brewing only refreshes the
timer (time mode). -/
def weightSampleStep (s : SysState) (connected : Bool) (newWeight : Option ℚ)
    (now : ℚ) : SysState :=
  match connected, newWeight with
  | true, some w =>
      let s1 := { s with currentWeight := w }
      if s1.shot.brewing ∧ s1.shot.samples.length < MAX_SHOT_DATAPOINTS then
        let trel := now - s1.shot.start_timestamp_s
        let samples2 := s1.shot.samples ++ [(trel, w)]
        { s1 with shot :=
            { s1.shot with samples := samples2, shotTimer := trel,
                           expected_end_s := calculateEndTime samples2 s1.tuning } }
      else s1
  | _, _ =>
      if s.shot.brewing ∧ connected = false then
        { s with shot :=
            { s.shot with shotTimer := now - s.shot.start_timestamp_s } }
      else s

/-- One shift of the debounce history (main.cpp lines 533-537): every entry
moves one slot back and the newest raw reading (already inverted for the
active-low line) enters at index 0. -/
def debounceShift (arr : List Bool) (raw : Bool) : List Bool :=
  raw :: arr.dropLast

/-- The derived debounce state (main.cpp lines 543-552): active when any
entry of the history is active. -/
def debounceAny (arr : List Bool) : Bool := arr.any id

/-- The button-read block of `loop()` (main.cpp lines 529-560).  `due` is
`millis() - lastButtonRead_ms > BUTTON_READ_PERIOD_MS`; when it is false the
block does not run and `newButtonState` keeps its cached value.  After the
any-entry computation the reed-switch cooldown forces the state inactive. -/
def buttonReadStep (s : SysState) (due rawActive : Bool) (now : ℚ) : SysState :=
  if due then
    let arr := debounceShift s.btn.buttonArr rawActive
    let st0 := debounceAny arr
    let st :=
      if s.tuning.reedSwitch ∧ s.shot.brewing = false ∧
         now < s.shot.start_timestamp_s + s.shot.end_s + s.tuning.reedSwitchDelay then
        false
      else st0
    { s with btn := { s.btn with buttonArr := arr, newButtonState := st } }
  else s

/-- The if/else-if chain of shot initiation and completion events
(main.cpp lines 565-625): press, latch, release, max-duration stop,
target-time stop. -/
def shotEventChain (s : SysState) (connected : Bool) (now : ℚ) : EvResult :=
  if s.btn.newButtonState ∧ s.btn.buttonPressed = false then
    let b := { s.btn with buttonPressed := true }
    if s.tuning.reedSwitch then
      let sh := { s.shot with brewing := true }
      let r := setBrewingState true sh s.tuning b now
      ⟨{ s with shot := r.shot, btn := r.btn }, r.outs, []⟩
    else
      ⟨{ s with btn := b }, [], []⟩
  else if s.tuning.momentary = false ∧ s.shot.brewing ∧ s.btn.buttonLatched = false ∧
          s.tuning.minShotDuration < s.shot.shotTimer then
    ⟨{ s with btn := { s.btn with buttonLatched := true } }, [OutAction.outHigh], []⟩
  else if s.btn.buttonLatched = false ∧ s.btn.newButtonState = false ∧
          s.btn.buttonPressed then
    let b := { s.btn with buttonPressed := false }
    let brewing2 := !s.shot.brewing
    let sh := { s.shot with brewing := brewing2,
                            endR := if brewing2 then s.shot.endR else ENDTYPE.BUTTON }
    let r := setBrewingState brewing2 sh s.tuning b now
    ⟨{ s with shot := r.shot, btn := r.btn }, r.outs,
     if brewing2 then [] else [ENDTYPE.BUTTON]⟩
  else if s.shot.brewing ∧ s.tuning.maxShotDuration < s.shot.shotTimer then
    let sh := { s.shot with brewing := false, endR := ENDTYPE.TIME }
    let r := setBrewingState false sh s.tuning s.btn now
    ⟨{ s with shot := r.shot, btn := r.btn }, r.outs, [ENDTYPE.TIME]⟩
  else if s.shot.brewing ∧ (connected = false ∨ s.brewByTimeOnly) ∧
          s.tuning.targetTime ≤ s.shot.shotTimer then
    let sh := { s.shot with brewing := false, endR := ENDTYPE.TIME }
    let r := setBrewingState false sh s.tuning s.btn now
    ⟨{ s with shot := r.shot, btn := r.btn }, r.outs, [ENDTYPE.TIME]⟩
  else
    ⟨s, [], []⟩

/-- The independent end-shot-by-weight check (main.cpp lines 628-638),
evaluated after the chain above. -/
def weightStopCheck (s : SysState) (connected : Bool) (now : ℚ) : EvResult :=
  if connected ∧ s.brewByTimeOnly = false ∧ s.shot.brewing ∧
     s.shot.expected_end_s ≤ s.shot.shotTimer ∧
     s.tuning.minShotDuration < s.shot.shotTimer then
    let sh := { s.shot with brewing := false, endR := ENDTYPE.WEIGHT }
    let r := setBrewingState false sh s.tuning s.btn now
    ⟨{ s with shot := r.shot, btn := r.btn }, r.outs, [ENDTYPE.WEIGHT]⟩
  else
    ⟨s, [], []⟩

/-- The full shot-event section of `loop()` (main.cpp lines 565-638):
the if/else-if chain followed by the independent weight-stop check. -/
def shotEvents (s : SysState) (connected : Bool) (now : ℚ) : EvResult :=
  let mid := shotEventChain s connected now
  let w := weightStopCheck mid.state connected now
  ⟨w.state, mid.outs ++ w.outs, mid.consumed ++ w.consumed⟩

/-- The post-shot analysis / offset learner (main.cpp lines 646-676).  The
second component counts `config.save()` calls (one when the new offset is
applied, none on either rejection). -/
def offsetAnalysis (s : SysState) (connected : Bool) (now : ℚ) : SysState × ℕ :=
  if connected ∧ s.shot.start_timestamp_s ≠ 0 ∧ s.shot.end_s ≠ 0 ∧
     s.tuning.goalWeight - s.tuning.weightOffset ≤ s.currentWeight ∧
     s.shot.start_timestamp_s + s.shot.end_s + s.tuning.dripDelay < now then
    let s1 := { s with shot := { s.shot with start_timestamp_s := 0, end_s := 0 } }
    let newOffset := s.tuning.weightOffset + (s.currentWeight - s.tuning.goalWeight)
    if s.tuning.maxOffset <
       |s.currentWeight - s.tuning.goalWeight + s.tuning.weightOffset| then
      (s1, 0)
    else if newOffset < 0 then
      (s1, 0)
    else
      ({ s1 with tuning := { s1.tuning with weightOffset := newOffset } }, 1)
  else (s, 0)

/-- External observations consumed by one `loop()` pass. -/
structure TickInput where
  connAtModeUpdate : Bool
  connAtConnect : Bool
  connecting : Bool
  connected : Bool
  newWeight : Option ℚ
  buttonReadDue : Bool
  rawActive : Bool
  now : ℚ
  pending : PendingWrite
deriving DecidableEq, Repr

/-- Effects produced by one `loop()` pass. -/
structure TickOutput where
  outs : List OutAction
  saves : ℕ
  consumed : List ENDTYPE
deriving DecidableEq, Repr

/-- One pass of `loop()` (main.cpp lines 424-677) over the modelled state:
the `brewByTimeOnly` recomputation, the connect block, the pending-BLE-write
drain, the weight-sample block, the button read, the shot events and the
offset learner, in source order.  Heartbeats, LED updates, WiFi processing
and status notifications touch no modelled state. -/
def tick (s : SysState) (i : TickInput) : SysState × TickOutput :=
  let s1 := { s with brewByTimeOnly :=
      if s.tuning.brewByTimeOnlyConfigured then true else !i.connAtModeUpdate }
  let r1 := connectBlock s1 i.connAtConnect i.connecting i.now
  let d := processPendingBLEWrites r1.state.tuning i.pending
  let s2 := { r1.state with tuning := d.1 }
  let s3 := weightSampleStep s2 i.connected i.newWeight i.now
  let s4 := buttonReadStep s3 i.buttonReadDue i.rawActive i.now
  let r2 := shotEvents s4 i.connected i.now
  let a := offsetAnalysis r2.state i.connected i.now
  (a.1, ⟨r1.outs ++ r2.outs, d.2 + a.2, r1.consumed ++ r2.consumed⟩)

/-- The boot-time shot value, `Shot shot = {0.0f, 0.0f, 0.0f, 0.0f, {}, {}, 0, false, UNDEF}`. -/
def initShot : Shot :=
  ⟨0, 0, 0, 0, [], false, ENDTYPE.UNDEF⟩

/-- The boot-time button globals: an all-zero history, nothing pressed or latched. -/
def initBtn : ButtonState :=
  ⟨List.replicate BUTTON_STATE_ARRAY_LENGTH false, false, false, false⟩

/-- The state after `setup()` for a given loaded configuration:
`brewByTimeOnly = brewByTimeOnlyConfigured`, `currentWeight = 0`. -/
def initState (t : Tuning) : SysState :=
  ⟨initShot, t, initBtn, 0, t.brewByTimeOnlyConfigured⟩

/-- States the control loop can be in at a tick boundary, starting from boot
with configuration `t0`. -/
inductive Reachable (t0 : Tuning) : SysState → Prop
  | init : Reachable t0 (initState t0)
  | step : ∀ s i, Reachable t0 s → Reachable t0 (tick s i).1

/-- The sequence of derived debounce states produced by consecutive eligible
button reads: each read shifts the raw sample in and reports the any-entry
state of the refreshed window. -/
def iterateDebounce (arr : List Bool) : List Bool → List Bool
  | [] => []
  | raw :: rest =>
      let arr2 := debounceShift arr raw
      debounceAny arr2 :: iterateDebounce arr2 rest

/-- A representative loaded configuration used by concrete witnesses:
goal weight 50 g, no learned offset, max offset 5 g, 200 ms pulse, 3 s drip
delay, 1 s reed delay, 1 g prediction threshold, 5 s min / 60 s max shot
duration, 30 s target time, hold-style switch, no reed contact, no auto-tare,
weight-authoritative mode. -/
def tunExample : Tuning :=
  ⟨50, 0, 5, 200, 3, 1, 1, 5, 60, 30, false, false, false, false⟩

/-- The same configuration with a momentary switch. -/
def tunMomentary : Tuning :=
  { tunExample with momentary := true }

/-- Ten stored samples with a perfectly flat weight trace: one sample per
second at a constant 10 g.  The fitted slope over these is exactly 0. -/
def samplesFlat : List (ℚ × ℚ) :=
  [(1, 10), (2, 10), (3, 10), (4, 10), (5, 10),
   (6, 10), (7, 10), (8, 10), (9, 10), (10, 10)]

/-- Ten stored samples with a strictly decreasing weight trace (slope -1). -/
def samplesDown : List (ℚ × ℚ) :=
  [(1, 20), (2, 19), (3, 18), (4, 17), (5, 16),
   (6, 15), (7, 14), (8, 13), (9, 12), (10, 11)]

/-- A brewing session whose sample store is exactly at the 1000-point
capacity, with a 5 s shot timer, started at time 0. -/
def stateAtCapacity : SysState :=
  ⟨{ initShot with brewing := true, shotTimer := 5,
                   samples := List.replicate 1000 ((0 : ℚ), (0 : ℚ)),
                   expected_end_s := 60 },
   tunExample, initBtn, 0, false⟩

/-- A mid-brew session (started at 2 s, 3 s on the timer) used by concrete
witnesses; `bbto` selects the current `brewByTimeOnly` value. -/
def stateBrewing (bbto : Bool) : SysState :=
  ⟨{ initShot with brewing := true, start_timestamp_s := 2, shotTimer := 3,
                   expected_end_s := 60 },
   tunExample, initBtn, 10, bbto⟩

/-- A post-shot analysis state: session ran from 1 s for 10 s, goal 45 g,
learned offset 1 g, max offset 5 g; the scale now reads `w` grams. -/
def stateAnalysis (w : ℚ) : SysState :=
  ⟨{ initShot with start_timestamp_s := 1, end_s := 10 },
   ⟨45, 1, 5, 200, 2, 1, 1, 5, 60, 30, false, false, false, false⟩,
   initBtn, w, false⟩

/-- An idle state whose debounced input just went active (a fresh press),
with a hold-style switch and no reed contact. -/
def stateIdlePress : SysState :=
  ⟨initShot, tunExample, { initBtn with newButtonState := true }, 0, false⟩

/-- An idle state in the tick after the debounced input went inactive again
while `buttonPressed` was still latched high (a release edge). -/
def stateIdleRelease : SysState :=
  ⟨initShot, tunExample, { initBtn with buttonPressed := true }, 0, false⟩

/-- A brewing state observing the same release edge. -/
def stateBrewRelease : SysState :=
  ⟨{ initShot with brewing := true, shotTimer := 3, expected_end_s := 60 },
   tunExample, { initBtn with buttonPressed := true }, 0, false⟩

/-- A shot that has just been switched off with the given classification,
as passed to the stop branch of `setBrewingState`. -/
def shotStopped (e : ENDTYPE) : Shot :=
  { initShot with endR := e, start_timestamp_s := 2 }

/-- A pending-write mailbox with nothing dirty. -/
def pendingClean : PendingWrite :=
  ⟨false, false, false, false, false, false, false, 0, 0, 0, 0, 0, 0, 0⟩

/-- Claim C6: whenever fewer than 10 samples are stored, or the most recent
stored weight is strictly below `minWeightForPrediction`, `calculateEndTime`
sets the predicted end to `maxShotDuration`. -/
theorem claim_C6_no_prediction_yields_max (samples : List (ℚ × ℚ)) (t : Tuning)
    (h : samples.length < NTrend ∨ lastSampleWeight samples < t.minWeightForPrediction) :
    calculateEndTime samples t = t.maxShotDuration := by
  unfold calculateEndTime
  rw [if_pos h]

/-- Witness for claim C6: the empty sample store predicts `maxShotDuration`
under the representative configuration. -/
theorem claim_C6_witness :
    calculateEndTime [] tunExample = tunExample.maxShotDuration :=
  claim_C6_no_prediction_yields_max [] tunExample (Or.inl (by simp [NTrend]))

/-- Counterexample to claim C1 as stated: a session of 10 samples at a
constant 10 g (one per second) has fitted slope exactly 0 and a last weight
above the prediction threshold, yet `calculateEndTime` does not return
`maxShotDuration` — with a zero slope the source skips the `m < 0` fallback
and divides by zero (yielding an infinity for IEEE floats; 0 in this
rational model — in either semantics not the 60 s maximum). -/
theorem claim_C1_counterexample :
    NTrend ≤ samplesFlat.length ∧
    tunExample.minWeightForPrediction ≤ lastSampleWeight samplesFlat ∧
    fittedSlope (lastN samplesFlat) ≤ 0 ∧
    calculateEndTime samplesFlat tunExample ≠ tunExample.maxShotDuration := by
  refine ⟨by simp [NTrend, samplesFlat], ?_, ?_, ?_⟩
  · norm_num [samplesFlat, lastSampleWeight, tunExample]
  · norm_num [samplesFlat, lastN, fittedSlope, sumXY, sumX, sumY, sumSquaredX, NTrend]
  · norm_num [calculateEndTime, samplesFlat, lastN, lastSampleWeight, fittedSlope,
      fittedIntercept, sumXY, sumX, sumY, sumSquaredX, NTrend, tunExample]

/-- Claim C1 (amended): for sessions with at least 10 stored samples whose
most recent weight is at or above `minWeightForPrediction`, a strictly
negative fitted slope over the last 10 pairs makes `calculateEndTime` return
`maxShotDuration`, regardless of the intercept.  (The source tests `m < 0`,
not `m ≤ 0`: a slope of exactly zero falls through to the division.) -/
theorem claim_C1_negative_slope_yields_max (samples : List (ℚ × ℚ)) (t : Tuning)
    (hn : ¬ samples.length < NTrend)
    (hw : ¬ lastSampleWeight samples < t.minWeightForPrediction)
    (hm : fittedSlope (lastN samples) < 0) :
    calculateEndTime samples t = t.maxShotDuration := by
  unfold calculateEndTime
  rw [if_neg (by push_neg; exact ⟨not_lt.mp hn, not_lt.mp hw⟩)]
  simp only [if_pos hm]

/-- Witness for the amended claim C1: ten samples falling 1 g per second
(slope -1) predict the 60 s maximum. -/
theorem claim_C1_witness :
    calculateEndTime samplesDown tunExample = tunExample.maxShotDuration :=
  claim_C1_negative_slope_yields_max samplesDown tunExample
    (by simp [NTrend, samplesDown])
    (by norm_num [samplesDown, lastSampleWeight, tunExample])
    (by norm_num [samplesDown, lastN, fittedSlope, sumXY, sumX, sumY, sumSquaredX, NTrend])

/-- Claim C4: whenever the post-shot analysis fires (scale connected, a
recorded session, the weight past the adjusted goal and the drip delay
elapsed), the learner computes `newOffset = weightOffset + (finalWeight -
goalWeight)` and applies and persists it exactly when
`|finalWeight - goalWeight + weightOffset| ≤ maxOffset` and the new offset is
nonnegative; otherwise the offset is left unchanged and nothing is saved. -/
theorem claim_C4_offset_learner (s : SysState) (now : ℚ)
    (h1 : s.shot.start_timestamp_s ≠ 0) (h2 : s.shot.end_s ≠ 0)
    (h3 : s.tuning.goalWeight - s.tuning.weightOffset ≤ s.currentWeight)
    (h4 : s.shot.start_timestamp_s + s.shot.end_s + s.tuning.dripDelay < now) :
    ((offsetAnalysis s true now).1.tuning.weightOffset =
      if |s.currentWeight - s.tuning.goalWeight + s.tuning.weightOffset| ≤ s.tuning.maxOffset ∧
         0 ≤ s.tuning.weightOffset + (s.currentWeight - s.tuning.goalWeight) then
        s.tuning.weightOffset + (s.currentWeight - s.tuning.goalWeight)
      else s.tuning.weightOffset) ∧
    ((offsetAnalysis s true now).2 = 1 ↔
      |s.currentWeight - s.tuning.goalWeight + s.tuning.weightOffset| ≤ s.tuning.maxOffset ∧
      0 ≤ s.tuning.weightOffset + (s.currentWeight - s.tuning.goalWeight)) := by
  unfold offsetAnalysis
  rw [if_pos ⟨rfl, h1, h2, h3, h4⟩]
  by_cases hA : s.tuning.maxOffset <
      |s.currentWeight - s.tuning.goalWeight + s.tuning.weightOffset|
  · rw [if_pos hA]
    simp [not_le.mpr hA]
  · rw [if_neg hA]
    by_cases hB : s.tuning.weightOffset + (s.currentWeight - s.tuning.goalWeight) < 0
    · rw [if_pos hB]
      simp [not_le.mpr hB]
    · rw [if_neg hB]
      simp [not_lt.mp hA, not_lt.mp hB]

/-- Witness for claim C4, the two worked examples of the spec: a 46 g final
weight against a 45 g goal with offset 1 g and max offset 5 g yields offset 2
and one persistence call; a 52 g final weight is rejected (deviation 8 g > 5 g)
leaving the offset at 1 g with no persistence call. -/
theorem claim_C4_witness :
    (offsetAnalysis (stateAnalysis 46) true 30).1.tuning.weightOffset = 2 ∧
    (offsetAnalysis (stateAnalysis 46) true 30).2 = 1 ∧
    (offsetAnalysis (stateAnalysis 52) true 30).1.tuning.weightOffset = 1 ∧
    (offsetAnalysis (stateAnalysis 52) true 30).2 = 0 := by
  have e46 := claim_C4_offset_learner (stateAnalysis 46) 30
    (by norm_num [stateAnalysis, initShot]) (by norm_num [stateAnalysis, initShot])
    (by norm_num [stateAnalysis, initShot]) (by norm_num [stateAnalysis, initShot])
  have e52 := claim_C4_offset_learner (stateAnalysis 52) 30
    (by norm_num [stateAnalysis, initShot]) (by norm_num [stateAnalysis, initShot])
    (by norm_num [stateAnalysis, initShot]) (by norm_num [stateAnalysis, initShot])
  refine ⟨?_, ?_, ?_, ?_⟩
  · rw [e46.1]
    norm_num [stateAnalysis]
  · rw [e46.2]
    norm_num [stateAnalysis]
  · rw [e52.1]
    norm_num [stateAnalysis]
  · norm_num [offsetAnalysis, stateAnalysis, initShot]

/-- Feeding inactive raw reads to an all-inactive window reports inactive
and leaves the window all-inactive. -/
theorem iterateDebounce_inactive_run (a : ℕ) (rest : List Bool) :
    iterateDebounce (List.replicate BUTTON_STATE_ARRAY_LENGTH false)
      (List.replicate a false ++ rest) =
    List.replicate a false ++
      iterateDebounce (List.replicate BUTTON_STATE_ARRAY_LENGTH false) rest := by
  induction a with
  | zero => simp
  | succ n ih =>
      have hs : debounceShift (List.replicate BUTTON_STATE_ARRAY_LENGTH false) false =
          List.replicate BUTTON_STATE_ARRAY_LENGTH false := by decide
      have ha : debounceAny (List.replicate BUTTON_STATE_ARRAY_LENGTH false) = false := by
        decide
      rw [List.replicate_succ, List.cons_append]
      simp only [iterateDebounce, hs, ha, ih, List.replicate_succ, List.cons_append]

/-- Claim C5: on an eligible read outside the reed cooldown the debounced
logical state equals the any-entry-active predicate of the refreshed
31-entry window; consequently a single active raw sample surrounded by
inactive reads yields an active state for exactly the 31 reads starting with
the one that sampled it and an inactive state on the read after that. -/
theorem claim_C5_debounce_any_and_pulse :
    (∀ (s : SysState) (raw : Bool) (now : ℚ),
      ¬ (s.tuning.reedSwitch = true ∧ s.shot.brewing = false ∧
         now < s.shot.start_timestamp_s + s.shot.end_s + s.tuning.reedSwitchDelay) →
      (buttonReadStep s true raw now).btn.newButtonState =
        debounceAny (debounceShift s.btn.buttonArr raw)) ∧
    (∀ a : ℕ,
      iterateDebounce (List.replicate BUTTON_STATE_ARRAY_LENGTH false)
        (List.replicate a false ++
          true :: List.replicate BUTTON_STATE_ARRAY_LENGTH false) =
      List.replicate a false ++
        (List.replicate BUTTON_STATE_ARRAY_LENGTH true ++ [false])) := by
  constructor
  · intro s raw now h
    simp only [buttonReadStep, if_true]
    rw [if_neg (by simpa using h)]
  · intro a
    rw [iterateDebounce_inactive_run]
    have hbase : iterateDebounce (List.replicate BUTTON_STATE_ARRAY_LENGTH false)
        (true :: List.replicate BUTTON_STATE_ARRAY_LENGTH false) =
        List.replicate BUTTON_STATE_ARRAY_LENGTH true ++ [false] := by decide
    rw [hbase]

/-- Witness for claim C5: at the fresh-press state the read reports the
any-entry state, and the pulse placed at the very first read is active for
31 reads then inactive. -/
theorem claim_C5_witness :
    (buttonReadStep stateIdlePress true true 5).btn.newButtonState =
      debounceAny (debounceShift stateIdlePress.btn.buttonArr true) ∧
    iterateDebounce (List.replicate BUTTON_STATE_ARRAY_LENGTH false)
      (true :: List.replicate BUTTON_STATE_ARRAY_LENGTH false) =
      List.replicate BUTTON_STATE_ARRAY_LENGTH true ++ [false] := by
  constructor
  · exact claim_C5_debounce_any_and_pulse.1 stateIdlePress true 5
      (by simp [stateIdlePress, tunExample])
  · have h := claim_C5_debounce_any_and_pulse.2 0
    simpa using h

/-- Claim C10: on leaving Brewing with a momentary switch, the stop handler
issues the timed high-delay-low output pulse exactly when the shot ended by
Weight or Time, and writes nothing to the output line for a Button or
Disconnect classification; with a non-momentary switch every stop drives the
output low and clears the latch. -/
theorem claim_C10_stop_output_pulse (sh : Shot) (t : Tuning) (b : ButtonState) (now : ℚ) :
    (t.momentary = true →
      ((setBrewingState false sh t b now).outs =
        [OutAction.outHigh, OutAction.delayMs t.brewPulseDuration, OutAction.outLow] ↔
        (sh.endR = ENDTYPE.WEIGHT ∨ sh.endR = ENDTYPE.TIME)) ∧
      ((sh.endR = ENDTYPE.BUTTON ∨ sh.endR = ENDTYPE.DISCONNECT) →
        (setBrewingState false sh t b now).outs = [])) ∧
    (t.momentary = false →
      (setBrewingState false sh t b now).outs = [OutAction.outLow] ∧
      (setBrewingState false sh t b now).btn.buttonLatched = false) := by
  cases hm : t.momentary <;> cases he : sh.endR <;>
    simp [setBrewingState, hm, he]

/-- Witness for claim C10: with the momentary configuration a Weight-ended
stop emits the pulse, a Button-ended stop emits nothing, and with the
non-momentary configuration a Time-ended stop drives the line low with the
latch cleared. -/
theorem claim_C10_witness :
    (setBrewingState false (shotStopped ENDTYPE.WEIGHT) tunMomentary initBtn 9).outs =
      [OutAction.outHigh, OutAction.delayMs tunMomentary.brewPulseDuration,
       OutAction.outLow] ∧
    (setBrewingState false (shotStopped ENDTYPE.BUTTON) tunMomentary initBtn 9).outs = [] ∧
    (setBrewingState false (shotStopped ENDTYPE.TIME) tunExample initBtn 9).outs =
      [OutAction.outLow] := by
  refine ⟨?_, ?_, ?_⟩
  · exact ((claim_C10_stop_output_pulse (shotStopped ENDTYPE.WEIGHT) tunMomentary
      initBtn 9).1 rfl).1.mpr (Or.inl rfl)
  · exact ((claim_C10_stop_output_pulse (shotStopped ENDTYPE.BUTTON) tunMomentary
      initBtn 9).1 rfl).2 (Or.inl rfl)
  · exact ((claim_C10_stop_output_pulse (shotStopped ENDTYPE.TIME) tunExample
      initBtn 9).2 rfl).1

/-- Claim C2: when a tick finds the scale disconnected and initiates a new
connection attempt while the session is Brewing, a false `brewByTimeOnly`
stops the session (the shot leaves Brewing and the stop handler consumes a
Disconnect classification, resetting it to Undefined), while a true
`brewByTimeOnly` leaves the session Brewing with nothing consumed. -/
theorem claim_C2_disconnect_stop (s : SysState) (now : ℚ)
    (hb : s.shot.brewing = true) :
    (s.brewByTimeOnly = false →
      (connectBlock s false false now).state.shot.brewing = false ∧
      (connectBlock s false false now).consumed = [ENDTYPE.DISCONNECT] ∧
      (connectBlock s false false now).state.shot.endR = ENDTYPE.UNDEF) ∧
    (s.brewByTimeOnly = true →
      (connectBlock s false false now).state.shot.brewing = true ∧
      (connectBlock s false false now).consumed = []) := by
  constructor
  · intro hT
    cases hmo : s.tuning.momentary <;>
      simp [connectBlock, setBrewingState, hb, hT, hmo]
  · intro hT
    simp [connectBlock, hb, hT]

/-- Witness for claim C2: the mid-brew example state is stopped with a
Disconnect classification in weight-authoritative mode and keeps brewing in
time-only mode. -/
theorem claim_C2_witness :
    (connectBlock (stateBrewing false) false false 9).state.shot.brewing = false ∧
    (connectBlock (stateBrewing false) false false 9).consumed = [ENDTYPE.DISCONNECT] ∧
    (connectBlock (stateBrewing true) false false 9).state.shot.brewing = true ∧
    (connectBlock (stateBrewing true) false false 9).consumed = [] := by
  have hF := (claim_C2_disconnect_stop (stateBrewing false) 9 rfl).1 rfl
  have hT := (claim_C2_disconnect_stop (stateBrewing true) 9 rfl).2 rfl
  exact ⟨hF.1, hF.2.1, hT.1, hT.2⟩

/-- Claim C9: with the reed switch disabled, a press of the debounced input
while Idle only records `buttonPressed` and does not start Brewing; the
subsequent release edge toggles the brewing flag, so from Idle it starts a
session (nothing consumed by a stop handler), and the same inactive edge
from Brewing stops the session with a Button classification (provided the
edge reaches the release handler, i.e. the preceding hold-latch takeover
branch — momentary switch, or timer still within `minShotDuration` — has
not captured it). -/
theorem claim_C9_release_toggles_brewing (s : SysState) (connected : Bool) (now : ℚ)
    (hreed : s.tuning.reedSwitch = false) :
    (s.btn.newButtonState = true → s.btn.buttonPressed = false →
     s.shot.brewing = false →
      (shotEvents s connected now).state.shot.brewing = false ∧
      (shotEvents s connected now).state.btn.buttonPressed = true) ∧
    (s.btn.newButtonState = false → s.btn.buttonPressed = true →
     s.btn.buttonLatched = false → s.shot.brewing = false →
     0 ≤ s.tuning.minShotDuration →
      (shotEvents s connected now).state.shot.brewing = true ∧
      (shotEvents s connected now).consumed = []) ∧
    (s.btn.newButtonState = false → s.btn.buttonPressed = true →
     s.btn.buttonLatched = false → s.shot.brewing = true →
     s.tuning.momentary = true ∨ s.shot.shotTimer ≤ s.tuning.minShotDuration →
      (shotEvents s connected now).state.shot.brewing = false ∧
      (shotEvents s connected now).consumed = [ENDTYPE.BUTTON]) := by
  refine ⟨?_, ?_, ?_⟩
  · intro h1 h2 h3
    simp [shotEvents, shotEventChain, weightStopCheck, hreed, h1, h2, h3]
  · intro h1 h2 h3 h4 h5
    simp [shotEvents, shotEventChain, weightStopCheck, setBrewingState,
      hreed, h1, h2, h3, h4, not_lt.mpr h5]
  · intro h1 h2 h3 h4 h5
    rcases h5 with hmo | hts
    · simp [shotEvents, shotEventChain, weightStopCheck, setBrewingState,
        hreed, h1, h2, h3, h4, hmo]
    · cases hmo : s.tuning.momentary <;>
        simp [shotEvents, shotEventChain, weightStopCheck, setBrewingState,
          hreed, h1, h2, h3, h4, hmo, not_lt.mpr hts]

/-- Witness for claim C9: at the example idle-press state the session stays
Idle with the press recorded; at the idle-release state the session starts;
at the brewing-release state the session stops classified Button. -/
theorem claim_C9_witness :
    (shotEvents stateIdlePress true 5).state.shot.brewing = false ∧
    (shotEvents stateIdlePress true 5).state.btn.buttonPressed = true ∧
    (shotEvents stateIdleRelease true 5).state.shot.brewing = true ∧
    (shotEvents stateIdleRelease true 5).consumed = [] ∧
    (shotEvents stateBrewRelease true 5).state.shot.brewing = false ∧
    (shotEvents stateBrewRelease true 5).consumed = [ENDTYPE.BUTTON] := by
  have hp := (claim_C9_release_toggles_brewing stateIdlePress true 5 rfl).1
    rfl rfl rfl
  have hr := (claim_C9_release_toggles_brewing stateIdleRelease true 5 rfl).2.1
    rfl rfl rfl rfl (by norm_num [stateIdleRelease, tunExample])
  have hb := (claim_C9_release_toggles_brewing stateBrewRelease true 5 rfl).2.2
    rfl rfl rfl rfl (Or.inr (by norm_num [stateBrewRelease, tunExample, initShot]))
  exact ⟨hp.1, hp.2, hr.1, hr.2, hb.1, hb.2⟩

/-- The goal-weight drain raises `needsSave` exactly for a dirty slot whose
value differs from the truncated in-memory goal weight. -/
theorem drainWeight_snd (p : PendingWrite) (a : Tuning × Bool) :
    ((drainWeight p a).2 = true ↔
      a.2 = true ∨ (p.weightDirty = true ∧ p.weight ≠ trunc8 a.1.goalWeight)) := by
  simp only [drainWeight]
  split_ifs <;> simp_all

/-- The reed-switch drain raises `needsSave` exactly for a dirty slot whose
boolean-coerced value differs from the in-memory flag. -/
theorem drainReed_snd (p : PendingWrite) (a : Tuning × Bool) :
    ((drainReed p a).2 = true ↔
      a.2 = true ∨ (p.reedSwitchDirty = true ∧ (p.reedSwitchVal != 0) ≠ a.1.reedSwitch)) := by
  simp only [drainReed]
  split_ifs <;> simp_all

/-- The momentary drain raises `needsSave` exactly for a dirty slot whose
boolean-coerced value differs from the in-memory flag. -/
theorem drainMomentary_snd (p : PendingWrite) (a : Tuning × Bool) :
    ((drainMomentary p a).2 = true ↔
      a.2 = true ∨ (p.momentaryDirty = true ∧ (p.momentaryVal != 0) ≠ a.1.momentary)) := by
  simp only [drainMomentary]
  split_ifs <;> simp_all

/-- The auto-tare drain raises `needsSave` exactly for a dirty slot whose
boolean-coerced value differs from the in-memory flag. -/
theorem drainAutoTare_snd (p : PendingWrite) (a : Tuning × Bool) :
    ((drainAutoTare p a).2 = true ↔
      a.2 = true ∨ (p.autoTareDirty = true ∧ (p.autoTareVal != 0) ≠ a.1.autoTare)) := by
  simp only [drainAutoTare]
  split_ifs <;> simp_all

/-- The min-duration drain raises `needsSave` exactly for a dirty slot whose
value differs from the in-memory duration. -/
theorem drainMinDur_snd (p : PendingWrite) (a : Tuning × Bool) :
    ((drainMinDur p a).2 = true ↔
      a.2 = true ∨ (p.minShotDurationDirty = true ∧
        (p.minShotDurationVal : ℚ) ≠ a.1.minShotDuration)) := by
  simp only [drainMinDur]
  split_ifs <;> simp_all

/-- The max-duration drain raises `needsSave` exactly for a dirty slot whose
value differs from the in-memory duration. -/
theorem drainMaxDur_snd (p : PendingWrite) (a : Tuning × Bool) :
    ((drainMaxDur p a).2 = true ↔
      a.2 = true ∨ (p.maxShotDurationDirty = true ∧
        (p.maxShotDurationVal : ℚ) ≠ a.1.maxShotDuration)) := by
  simp only [drainMaxDur]
  split_ifs <;> simp_all

/-- The drip-delay drain raises `needsSave` exactly for a dirty slot whose
value differs from the in-memory delay. -/
theorem drainDrip_snd (p : PendingWrite) (a : Tuning × Bool) :
    ((drainDrip p a).2 = true ↔
      a.2 = true ∨ (p.dripDelayDirty = true ∧
        (p.dripDelayVal : ℚ) ≠ a.1.dripDelay)) := by
  simp only [drainDrip]
  split_ifs <;> simp_all

/-- The drainWeight drain leaves the `reedSwitch` tuning field unchanged. -/
theorem drainWeight_keeps_reedSwitch (p : PendingWrite) (a : Tuning × Bool) :
    (drainWeight p a).1.reedSwitch = a.1.reedSwitch := by
  simp only [drainWeight]
  split_ifs <;> rfl

/-- The drainWeight drain leaves the `momentary` tuning field unchanged. -/
theorem drainWeight_keeps_momentary (p : PendingWrite) (a : Tuning × Bool) :
    (drainWeight p a).1.momentary = a.1.momentary := by
  simp only [drainWeight]
  split_ifs <;> rfl

/-- The drainWeight drain leaves the `autoTare` tuning field unchanged. -/
theorem drainWeight_keeps_autoTare (p : PendingWrite) (a : Tuning × Bool) :
    (drainWeight p a).1.autoTare = a.1.autoTare := by
  simp only [drainWeight]
  split_ifs <;> rfl

/-- The drainWeight drain leaves the `minShotDuration` tuning field unchanged. -/
theorem drainWeight_keeps_minShotDuration (p : PendingWrite) (a : Tuning × Bool) :
    (drainWeight p a).1.minShotDuration = a.1.minShotDuration := by
  simp only [drainWeight]
  split_ifs <;> rfl

/-- The drainWeight drain leaves the `maxShotDuration` tuning field unchanged. -/
theorem drainWeight_keeps_maxShotDuration (p : PendingWrite) (a : Tuning × Bool) :
    (drainWeight p a).1.maxShotDuration = a.1.maxShotDuration := by
  simp only [drainWeight]
  split_ifs <;> rfl

/-- The drainWeight drain leaves the `dripDelay` tuning field unchanged. -/
theorem drainWeight_keeps_dripDelay (p : PendingWrite) (a : Tuning × Bool) :
    (drainWeight p a).1.dripDelay = a.1.dripDelay := by
  simp only [drainWeight]
  split_ifs <;> rfl

/-- The drainReed drain leaves the `momentary` tuning field unchanged. -/
theorem drainReed_keeps_momentary (p : PendingWrite) (a : Tuning × Bool) :
    (drainReed p a).1.momentary = a.1.momentary := by
  simp only [drainReed]
  split_ifs <;> rfl

/-- The drainReed drain leaves the `autoTare` tuning field unchanged. -/
theorem drainReed_keeps_autoTare (p : PendingWrite) (a : Tuning × Bool) :
    (drainReed p a).1.autoTare = a.1.autoTare := by
  simp only [drainReed]
  split_ifs <;> rfl

/-- The drainReed drain leaves the `minShotDuration` tuning field unchanged. -/
theorem drainReed_keeps_minShotDuration (p : PendingWrite) (a : Tuning × Bool) :
    (drainReed p a).1.minShotDuration = a.1.minShotDuration := by
  simp only [drainReed]
  split_ifs <;> rfl

/-- The drainReed drain leaves the `maxShotDuration` tuning field unchanged. -/
theorem drainReed_keeps_maxShotDuration (p : PendingWrite) (a : Tuning × Bool) :
    (drainReed p a).1.maxShotDuration = a.1.maxShotDuration := by
  simp only [drainReed]
  split_ifs <;> rfl

/-- The drainReed drain leaves the `dripDelay` tuning field unchanged. -/
theorem drainReed_keeps_dripDelay (p : PendingWrite) (a : Tuning × Bool) :
    (drainReed p a).1.dripDelay = a.1.dripDelay := by
  simp only [drainReed]
  split_ifs <;> rfl

/-- The drainMomentary drain leaves the `autoTare` tuning field unchanged. -/
theorem drainMomentary_keeps_autoTare (p : PendingWrite) (a : Tuning × Bool) :
    (drainMomentary p a).1.autoTare = a.1.autoTare := by
  simp only [drainMomentary]
  split_ifs <;> rfl

/-- The drainMomentary drain leaves the `minShotDuration` tuning field unchanged. -/
theorem drainMomentary_keeps_minShotDuration (p : PendingWrite) (a : Tuning × Bool) :
    (drainMomentary p a).1.minShotDuration = a.1.minShotDuration := by
  simp only [drainMomentary]
  split_ifs <;> rfl

/-- The drainMomentary drain leaves the `maxShotDuration` tuning field unchanged. -/
theorem drainMomentary_keeps_maxShotDuration (p : PendingWrite) (a : Tuning × Bool) :
    (drainMomentary p a).1.maxShotDuration = a.1.maxShotDuration := by
  simp only [drainMomentary]
  split_ifs <;> rfl

/-- The drainMomentary drain leaves the `dripDelay` tuning field unchanged. -/
theorem drainMomentary_keeps_dripDelay (p : PendingWrite) (a : Tuning × Bool) :
    (drainMomentary p a).1.dripDelay = a.1.dripDelay := by
  simp only [drainMomentary]
  split_ifs <;> rfl

/-- The drainAutoTare drain leaves the `minShotDuration` tuning field unchanged. -/
theorem drainAutoTare_keeps_minShotDuration (p : PendingWrite) (a : Tuning × Bool) :
    (drainAutoTare p a).1.minShotDuration = a.1.minShotDuration := by
  simp only [drainAutoTare]
  split_ifs <;> rfl

/-- The drainAutoTare drain leaves the `maxShotDuration` tuning field unchanged. -/
theorem drainAutoTare_keeps_maxShotDuration (p : PendingWrite) (a : Tuning × Bool) :
    (drainAutoTare p a).1.maxShotDuration = a.1.maxShotDuration := by
  simp only [drainAutoTare]
  split_ifs <;> rfl

/-- The drainAutoTare drain leaves the `dripDelay` tuning field unchanged. -/
theorem drainAutoTare_keeps_dripDelay (p : PendingWrite) (a : Tuning × Bool) :
    (drainAutoTare p a).1.dripDelay = a.1.dripDelay := by
  simp only [drainAutoTare]
  split_ifs <;> rfl

/-- The drainMinDur drain leaves the `maxShotDuration` tuning field unchanged. -/
theorem drainMinDur_keeps_maxShotDuration (p : PendingWrite) (a : Tuning × Bool) :
    (drainMinDur p a).1.maxShotDuration = a.1.maxShotDuration := by
  simp only [drainMinDur]
  split_ifs <;> rfl

/-- The drainMinDur drain leaves the `dripDelay` tuning field unchanged. -/
theorem drainMinDur_keeps_dripDelay (p : PendingWrite) (a : Tuning × Bool) :
    (drainMinDur p a).1.dripDelay = a.1.dripDelay := by
  simp only [drainMinDur]
  split_ifs <;> rfl

/-- The drainMaxDur drain leaves the `dripDelay` tuning field unchanged. -/
theorem drainMaxDur_keeps_dripDelay (p : PendingWrite) (a : Tuning × Bool) :
    (drainMaxDur p a).1.dripDelay = a.1.dripDelay := by
  simp only [drainMaxDur]
  split_ifs <;> rfl

/-- Claim C7: one drain of the pending-write mailbox performs at most one
persistence call, and performs exactly one call precisely when some dirty
slot's coerced value differed from the corresponding in-memory value; a
drain in which no slot changed saves nothing. -/
theorem claim_C7_single_save_per_drain (t : Tuning) (p : PendingWrite) :
    (processPendingBLEWrites t p).2 ≤ 1 ∧
    ((processPendingBLEWrites t p).2 = 1 ↔
      ((p.weightDirty = true ∧ p.weight ≠ trunc8 t.goalWeight) ∨
       (p.reedSwitchDirty = true ∧ (p.reedSwitchVal != 0) ≠ t.reedSwitch) ∨
       (p.momentaryDirty = true ∧ (p.momentaryVal != 0) ≠ t.momentary) ∨
       (p.autoTareDirty = true ∧ (p.autoTareVal != 0) ≠ t.autoTare) ∨
       (p.minShotDurationDirty = true ∧ (p.minShotDurationVal : ℚ) ≠ t.minShotDuration) ∨
       (p.maxShotDurationDirty = true ∧ (p.maxShotDurationVal : ℚ) ≠ t.maxShotDuration) ∨
       (p.dripDelayDirty = true ∧ (p.dripDelayVal : ℚ) ≠ t.dripDelay))) := by
  have hiff : (drainDrip p (drainMaxDur p (drainMinDur p (drainAutoTare p
      (drainMomentary p (drainReed p (drainWeight p (t, false)))))))).2 = true ↔
      ((p.weightDirty = true ∧ p.weight ≠ trunc8 t.goalWeight) ∨
       (p.reedSwitchDirty = true ∧ (p.reedSwitchVal != 0) ≠ t.reedSwitch) ∨
       (p.momentaryDirty = true ∧ (p.momentaryVal != 0) ≠ t.momentary) ∨
       (p.autoTareDirty = true ∧ (p.autoTareVal != 0) ≠ t.autoTare) ∨
       (p.minShotDurationDirty = true ∧ (p.minShotDurationVal : ℚ) ≠ t.minShotDuration) ∨
       (p.maxShotDurationDirty = true ∧ (p.maxShotDurationVal : ℚ) ≠ t.maxShotDuration) ∨
       (p.dripDelayDirty = true ∧ (p.dripDelayVal : ℚ) ≠ t.dripDelay)) := by
    rw [drainDrip_snd, drainMaxDur_snd, drainMinDur_snd, drainAutoTare_snd,
      drainMomentary_snd, drainReed_snd, drainWeight_snd,
      drainMaxDur_keeps_dripDelay, drainMinDur_keeps_dripDelay,
      drainAutoTare_keeps_dripDelay, drainMomentary_keeps_dripDelay,
      drainReed_keeps_dripDelay, drainWeight_keeps_dripDelay,
      drainMinDur_keeps_maxShotDuration, drainAutoTare_keeps_maxShotDuration,
      drainMomentary_keeps_maxShotDuration, drainReed_keeps_maxShotDuration,
      drainWeight_keeps_maxShotDuration,
      drainAutoTare_keeps_minShotDuration, drainMomentary_keeps_minShotDuration,
      drainReed_keeps_minShotDuration, drainWeight_keeps_minShotDuration,
      drainMomentary_keeps_autoTare, drainReed_keeps_autoTare,
      drainWeight_keeps_autoTare,
      drainReed_keeps_momentary, drainWeight_keeps_momentary,
      drainWeight_keeps_reedSwitch]
    simp [or_assoc]
  constructor
  · simp only [processPendingBLEWrites]
    split_ifs <;> simp
  · simp only [processPendingBLEWrites]
    split_ifs with h
    · simp only [eq_self_iff_true, true_iff]
      exact hiff.mp h
    · simp only [OfNat.zero_ne_ofNat, false_iff]
      intro hc
      exact h (hiff.mpr hc)

/-- Replacing the tuning globals leaves the shot untouched. -/
theorem update_tuning_shot (s : SysState) (t : Tuning) :
    ({ s with tuning := t } : SysState).shot = s.shot := rfl

/-- Recomputing `brewByTimeOnly` leaves the shot untouched. -/
theorem update_bbto_shot (s : SysState) (b : Bool) :
    ({ s with brewByTimeOnly := b } : SysState).shot = s.shot := rfl

/-- Every `setBrewingState` call ends with `shot.end = UNDEF`. -/
theorem setBrewingState_endR (brewing : Bool) (sh : Shot) (t : Tuning)
    (b : ButtonState) (now : ℚ) :
    (setBrewingState brewing sh t b now).shot.endR = ENDTYPE.UNDEF := rfl

/-- `setBrewingState` clears the sample store on a start and keeps it on a
stop. -/
theorem setBrewingState_samples (brewing : Bool) (sh : Shot) (t : Tuning)
    (b : ButtonState) (now : ℚ) :
    (setBrewingState brewing sh t b now).shot.samples =
      if brewing then [] else sh.samples := by
  cases brewing <;> simp only [setBrewingState] <;> split_ifs <;> rfl

/-- The connect block keeps the sample store unchanged. -/
theorem connectBlock_samples (s : SysState) (c g : Bool) (now : ℚ) :
    (connectBlock s c g now).state.shot.samples = s.shot.samples := by
  simp only [connectBlock]
  split_ifs <;> simp [setBrewingState_samples]

/-- The connect block preserves an Undefined end classification. -/
theorem connectBlock_endR (s : SysState) (c g : Bool) (now : ℚ)
    (h : s.shot.endR = ENDTYPE.UNDEF) :
    (connectBlock s c g now).state.shot.endR = ENDTYPE.UNDEF := by
  simp only [connectBlock]
  split_ifs <;> simp [setBrewingState_endR, h]

/-- The connect block never hands an Undefined classification to the stop
handler. -/
theorem connectBlock_consumed (s : SysState) (c g : Bool) (now : ℚ) :
    ENDTYPE.UNDEF ∉ (connectBlock s c g now).consumed := by
  simp only [connectBlock]
  split_ifs <;> simp

/-- The weight-reception block does not modify the end classification. -/
theorem weightSampleStep_endR (s : SysState) (c : Bool) (nw : Option ℚ) (now : ℚ) :
    (weightSampleStep s c nw now).shot.endR = s.shot.endR := by
  cases c <;> cases nw <;> simp only [weightSampleStep] <;> split_ifs <;> rfl

/-- The weight-reception block never grows the sample store past the
1000-point capacity. -/
theorem weightSampleStep_length (s : SysState) (c : Bool) (nw : Option ℚ) (now : ℚ)
    (h : s.shot.samples.length ≤ MAX_SHOT_DATAPOINTS) :
    (weightSampleStep s c nw now).shot.samples.length ≤ MAX_SHOT_DATAPOINTS := by
  cases c <;> cases nw <;> simp only [weightSampleStep] <;> split_ifs with hc <;>
    simp_all [MAX_SHOT_DATAPOINTS] <;> omega

/-- The button-read block does not touch the shot. -/
theorem buttonReadStep_shot (s : SysState) (d r : Bool) (now : ℚ) :
    (buttonReadStep s d r now).shot = s.shot := by
  simp only [buttonReadStep]
  split_ifs <;> rfl

/-- The event chain preserves an Undefined end classification. -/
theorem shotEventChain_endR (s : SysState) (c : Bool) (now : ℚ)
    (h : s.shot.endR = ENDTYPE.UNDEF) :
    (shotEventChain s c now).state.shot.endR = ENDTYPE.UNDEF := by
  simp only [shotEventChain]
  split_ifs <;> simp [setBrewingState_endR, h]

/-- The event chain never grows the sample store. -/
theorem shotEventChain_samples_le (s : SysState) (c : Bool) (now : ℚ) :
    (shotEventChain s c now).state.shot.samples.length ≤ s.shot.samples.length := by
  simp only [shotEventChain]
  cases hb : s.shot.brewing <;> split_ifs <;> simp [setBrewingState_samples, hb]

/-- The event chain never hands an Undefined classification to the stop
handler. -/
theorem shotEventChain_consumed (s : SysState) (c : Bool) (now : ℚ) :
    ENDTYPE.UNDEF ∉ (shotEventChain s c now).consumed := by
  simp only [shotEventChain]
  split_ifs <;> simp

/-- The weight-stop check keeps the sample store unchanged. -/
theorem weightStopCheck_samples (s : SysState) (c : Bool) (now : ℚ) :
    (weightStopCheck s c now).state.shot.samples = s.shot.samples := by
  simp only [weightStopCheck]
  split_ifs <;> simp [setBrewingState_samples]

/-- The weight-stop check preserves an Undefined end classification. -/
theorem weightStopCheck_endR (s : SysState) (c : Bool) (now : ℚ)
    (h : s.shot.endR = ENDTYPE.UNDEF) :
    (weightStopCheck s c now).state.shot.endR = ENDTYPE.UNDEF := by
  simp only [weightStopCheck]
  split_ifs <;> simp [setBrewingState_endR, h]

/-- The weight-stop check never hands an Undefined classification to the
stop handler. -/
theorem weightStopCheck_consumed (s : SysState) (c : Bool) (now : ℚ) :
    ENDTYPE.UNDEF ∉ (weightStopCheck s c now).consumed := by
  simp only [weightStopCheck]
  split_ifs <;> simp

/-- The whole shot-event section preserves an Undefined end classification. -/
theorem shotEvents_endR (s : SysState) (c : Bool) (now : ℚ)
    (h : s.shot.endR = ENDTYPE.UNDEF) :
    (shotEvents s c now).state.shot.endR = ENDTYPE.UNDEF := by
  simp only [shotEvents]
  exact weightStopCheck_endR _ _ _ (shotEventChain_endR _ _ _ h)

/-- The whole shot-event section never grows the sample store. -/
theorem shotEvents_samples_le (s : SysState) (c : Bool) (now : ℚ) :
    (shotEvents s c now).state.shot.samples.length ≤ s.shot.samples.length := by
  simp only [shotEvents]
  rw [weightStopCheck_samples]
  exact shotEventChain_samples_le s c now

/-- The whole shot-event section never hands an Undefined classification to
the stop handler. -/
theorem shotEvents_consumed (s : SysState) (c : Bool) (now : ℚ) :
    ENDTYPE.UNDEF ∉ (shotEvents s c now).consumed := by
  simp only [shotEvents, List.mem_append]
  rintro (h | h)
  · exact shotEventChain_consumed s c now h
  · exact weightStopCheck_consumed _ c now h

/-- The post-shot analysis does not modify the end classification. -/
theorem offsetAnalysis_endR (s : SysState) (c : Bool) (now : ℚ) :
    (offsetAnalysis s c now).1.shot.endR = s.shot.endR := by
  simp only [offsetAnalysis]
  split_ifs <;> rfl

/-- The post-shot analysis keeps the sample store unchanged. -/
theorem offsetAnalysis_samples (s : SysState) (c : Bool) (now : ℚ) :
    (offsetAnalysis s c now).1.shot.samples = s.shot.samples := by
  simp only [offsetAnalysis]
  split_ifs <;> rfl

/-- One tick preserves an Undefined end classification. -/
theorem tick_endR (s : SysState) (i : TickInput) (h : s.shot.endR = ENDTYPE.UNDEF) :
    (tick s i).1.shot.endR = ENDTYPE.UNDEF := by
  simp only [tick]
  rw [offsetAnalysis_endR]
  apply shotEvents_endR
  rw [buttonReadStep_shot, weightSampleStep_endR, update_tuning_shot]
  exact connectBlock_endR _ _ _ _ h

/-- One tick keeps the sample store within the 1000-point capacity. -/
theorem tick_samples_le (s : SysState) (i : TickInput)
    (h : s.shot.samples.length ≤ MAX_SHOT_DATAPOINTS) :
    (tick s i).1.shot.samples.length ≤ MAX_SHOT_DATAPOINTS := by
  simp only [tick]
  rw [offsetAnalysis_samples]
  apply le_trans (shotEvents_samples_le _ _ _)
  rw [buttonReadStep_shot]
  apply weightSampleStep_length
  rw [update_tuning_shot, connectBlock_samples]
  exact h

/-- A tick never hands an Undefined classification to the stop handler. -/
theorem tick_consumed (s : SysState) (i : TickInput) :
    ENDTYPE.UNDEF ∉ (tick s i).2.consumed := by
  simp only [tick, List.mem_append]
  rintro (h | h)
  · exact connectBlock_consumed _ _ _ _ h
  · exact shotEvents_consumed _ _ _ h

/-- Claim C8: in every reachable state at a tick boundary the session's
`endReason` is Undefined; within a tick, the classification handed to (and
consumed by) the stop handler is never Undefined, and the handler resets the
field to Undefined before the tick ends. -/
theorem claim_C8_endReason_undefined_at_boundary (t0 : Tuning) (s : SysState)
    (i : TickInput) (h : Reachable t0 s) :
    s.shot.endR = ENDTYPE.UNDEF ∧ ENDTYPE.UNDEF ∉ (tick s i).2.consumed := by
  refine ⟨?_, tick_consumed s i⟩
  induction h with
  | init => rfl
  | step s2 i2 h2 ih => exact tick_endR s2 i2 ih

/-- Witness for claim C8: the boot state has an Undefined `endReason` and a
representative first tick consumes no Undefined classification. -/
theorem claim_C8_witness :
    (initState tunExample).shot.endR = ENDTYPE.UNDEF ∧
    ENDTYPE.UNDEF ∉
      (tick (initState tunExample)
        ⟨true, true, false, true, some 12, true, false, 7, pendingClean⟩).2.consumed :=
  claim_C8_endReason_undefined_at_boundary tunExample (initState tunExample)
    ⟨true, true, false, true, some 12, true, false, 7, pendingClean⟩ Reachable.init

/-- The example at-capacity state really holds 1000 samples. -/
theorem stateAtCapacity_length :
    stateAtCapacity.shot.samples.length = MAX_SHOT_DATAPOINTS := by
  show (List.replicate 1000 ((0 : ℚ), (0 : ℚ))).length = MAX_SHOT_DATAPOINTS
  rw [List.length_replicate]
  rfl

/-- A weight sample received while the store is at capacity leaves the shot
record unchanged and only refreshes `currentWeight`. -/
theorem weightSampleStep_at_capacity (s : SysState) (w now : ℚ)
    (h : s.shot.samples.length = MAX_SHOT_DATAPOINTS) :
    (weightSampleStep s true (some w) now).shot = s.shot ∧
    (weightSampleStep s true (some w) now).currentWeight = w := by
  have hfull : ¬ (s.shot.brewing = true ∧
      s.shot.samples.length < MAX_SHOT_DATAPOINTS) := by
    rintro ⟨-, hlt⟩
    omega
  simp only [weightSampleStep]
  rw [if_neg (by simpa using hfull)]
  exact ⟨rfl, rfl⟩

/-- Counterexample to claim C3 as stated: in a brewing session whose sample
store has reached the 1000-point capacity, a freshly received weight sample
is not used to drive the display/estimate — the guard skips the whole block,
so the shot timer stays at its old value (5 s instead of the 6 s the claim
implies) and the predicted end is not recomputed; only `currentWeight` is
refreshed. -/
theorem claim_C3_counterexample :
    stateAtCapacity.shot.brewing = true ∧
    stateAtCapacity.shot.samples.length = MAX_SHOT_DATAPOINTS ∧
    (weightSampleStep stateAtCapacity true (some 30) 6).shot.shotTimer =
      stateAtCapacity.shot.shotTimer ∧
    (weightSampleStep stateAtCapacity true (some 30) 6).shot.shotTimer ≠
      6 - stateAtCapacity.shot.start_timestamp_s ∧
    (weightSampleStep stateAtCapacity true (some 30) 6).shot.expected_end_s =
      stateAtCapacity.shot.expected_end_s ∧
    (weightSampleStep stateAtCapacity true (some 30) 6).shot.samples =
      stateAtCapacity.shot.samples := by
  obtain ⟨hs, -⟩ :=
    weightSampleStep_at_capacity stateAtCapacity 30 6 stateAtCapacity_length
  refine ⟨rfl, stateAtCapacity_length, ?_, ?_, ?_, ?_⟩
  · rw [hs]
  · rw [hs]
    show (5 : ℚ) ≠ 6 - 0
    norm_num
  · rw [hs]
  · rw [hs]

/-- Claim C3 (amended): the sample count never exceeds the 1000-point
capacity in any reachable state, and once the capacity is reached a weight
sample received while Brewing leaves the shot record entirely unchanged —
it is not stored, and (contrary to the original claim) the shot timer and
predicted end are not updated either; only `currentWeight` is refreshed. -/
theorem claim_C3_capacity_invariant :
    (∀ (t0 : Tuning) (s : SysState), Reachable t0 s →
      s.shot.samples.length ≤ MAX_SHOT_DATAPOINTS) ∧
    (∀ (s : SysState) (w now : ℚ), s.shot.samples.length = MAX_SHOT_DATAPOINTS →
      (weightSampleStep s true (some w) now).shot = s.shot ∧
      (weightSampleStep s true (some w) now).currentWeight = w) := by
  constructor
  · intro t0 s h
    induction h with
    | init => simp [initState, initShot, MAX_SHOT_DATAPOINTS]
    | step s2 i2 h2 ih => exact tick_samples_le s2 i2 ih
  · intro s w now h
    exact weightSampleStep_at_capacity s w now h

/-- Witness for the amended claim C3: the boot state respects the capacity
bound, and at the example at-capacity state a new 30 g sample leaves the
shot untouched while refreshing `currentWeight`. -/
theorem claim_C3_witness :
    (initState tunExample).shot.samples.length ≤ MAX_SHOT_DATAPOINTS ∧
    (weightSampleStep stateAtCapacity true (some 30) 6).shot =
      stateAtCapacity.shot ∧
    (weightSampleStep stateAtCapacity true (some 30) 6).currentWeight = 30 := by
  refine ⟨claim_C3_capacity_invariant.1 tunExample _ Reachable.init, ?_⟩
  exact claim_C3_capacity_invariant.2 stateAtCapacity 30 6 stateAtCapacity_length

end ShotStopper
